import Mathlib

/-!
Verification development for the real-time event fan-out gateway
(src/services/gateway/main.py): a shallow embedding of the ingest queue,
the channel-adapter loop (sub_task), the batching/broadcast tick
(batch_task), and the JSON (de)serialization they use, together with
theorems settling the specification claims.
-/

namespace Gateway

/-- JSON values as handled by Python's json module, restricted to the shapes
the gateway exchanges: numbers are modelled as integers (floating point is
out of scope of the embedding; every event field exercised by the claims is
an integer or a string). -/
inductive Json where
  | null
  | bool (b : Bool)
  | num (n : Int)
  | str (s : String)
  | arr (items : List Json)
  | obj (fields : List (String × Json))

/-- The double-quote character. -/
def qc : Char := Char.ofNat 34

/-- The backslash character. -/
def bsl : Char := Char.ofNat 92

/-- The opening-brace character. -/
def lb : Char := Char.ofNat 123

/-- The closing-brace character. -/
def rb : Char := Char.ofNat 125

/-- Escaping of one character inside a JSON string literal, as json.dumps
does for the quote, backslash and common control characters. -/
def escapeChar (c : Char) : String :=
  if c = qc then String.singleton bsl ++ String.singleton qc
  else if c = bsl then String.singleton bsl ++ String.singleton bsl
  else if c = Char.ofNat 10 then String.singleton bsl ++ "n"
  else if c = Char.ofNat 9 then String.singleton bsl ++ "t"
  else if c = Char.ofNat 13 then String.singleton bsl ++ "r"
  else String.singleton c

/-- Escape every character of a string for inclusion in a JSON string
literal. -/
def escapeString (s : String) : String :=
  String.join (s.data.map escapeChar)

/-- A JSON string literal: quote, escaped body, quote. -/
def quoteStr (s : String) : String :=
  String.singleton qc ++ escapeString s ++ String.singleton qc

mutual

/-- Serialization of a JSON value exactly as Python's json.dumps renders it
with default options: item separator comma-space, key separator
colon-space. This is the json.dumps call of batch_task
(src/services/gateway/main.py line 37). -/
def dumps : Json → String
  | Json.null => "null"
  | Json.bool b => if b then "true" else "false"
  | Json.num n => toString n
  | Json.str s => quoteStr s
  | Json.arr xs => "[" ++ dumpsElems xs ++ "]"
  | Json.obj fs => String.singleton lb ++ dumpsFields fs ++ String.singleton rb

/-- Comma-space separated rendering of array elements. -/
def dumpsElems : List Json → String
  | [] => ""
  | [x] => dumps x
  | x :: y :: xs => dumps x ++ ", " ++ dumpsElems (y :: xs)

/-- Comma-space separated rendering of object fields, each key rendered as a
JSON string followed by colon-space and the value. -/
def dumpsFields : List (String × Json) → String
  | [] => ""
  | [(k, v)] => quoteStr k ++ ": " ++ dumps v
  | (k, v) :: g :: fs => quoteStr k ++ ": " ++ dumps v ++ ", " ++ dumpsFields (g :: fs)

end

/-- Skip JSON whitespace (space, tab, newline, carriage return). -/
def skipWs : List Char → List Char
  | [] => []
  | c :: cs => if c.isWhitespace then skipWs cs else c :: cs

/-- Read a run of decimal digits, accumulating their value. -/
def parseNat (acc : Nat) : List Char → Nat × List Char
  | [] => (acc, [])
  | c :: cs => if c.isDigit then parseNat (acc * 10 + (c.toNat - 48)) cs else (acc, c :: cs)

/-- Undo a backslash escape inside a JSON string body (the subset produced
by escapeChar; any other escaped character stands for itself). -/
def unescapeChar (d : Char) : Char :=
  if d = 'n' then Char.ofNat 10
  else if d = 't' then Char.ofNat 9
  else if d = 'r' then Char.ofNat 13
  else d

/-- Parse the body of a JSON string after its opening quote, up to and
consuming the closing quote. -/
def parseStringBody : List Char → Option (String × List Char)
  | [] => none
  | c :: cs =>
    if c = qc then some ("", cs)
    else if c = bsl then
      match cs with
      | [] => none
      | d :: ds =>
        match parseStringBody ds with
        | none => none
        | some (s, rest) => some (String.singleton (unescapeChar d) ++ s, rest)
    else
      match parseStringBody cs with
      | none => none
      | some (s, rest) => some (String.singleton c ++ s, rest)

mutual

/-- Recursive-descent JSON value reader with explicit fuel (the fuel only
bounds nesting and sequence length; loads supplies enough for any input).
Models the grammar json.loads accepts on the gateway's payloads. -/
def parseVal : Nat → List Char → Option (Json × List Char)
  | 0, _ => none
  | Nat.succ fuel, input =>
    match skipWs input with
    | [] => none
    | c :: rest =>
      if c = qc then
        match parseStringBody rest with
        | none => none
        | some (s, r) => some (Json.str s, r)
      else if c = lb then
        match skipWs rest with
        | [] => none
        | d :: r2 =>
          if d = rb then some (Json.obj [], r2)
          else
            match parseFields fuel (d :: r2) with
            | none => none
            | some (fs, r3) => some (Json.obj fs, r3)
      else if c = '[' then
        match skipWs rest with
        | [] => none
        | d :: r2 =>
          if d = ']' then some (Json.arr [], r2)
          else
            match parseElems fuel (d :: r2) with
            | none => none
            | some (xs, r3) => some (Json.arr xs, r3)
      else if c = '-' then
        match rest with
        | [] => none
        | d :: r2 =>
          if d.isDigit then
            let p := parseNat (d.toNat - 48) r2
            some (Json.num (-(Int.ofNat p.1)), p.2)
          else none
      else if c.isDigit then
        let p := parseNat (c.toNat - 48) rest
        some (Json.num (Int.ofNat p.1), p.2)
      else
        match c :: rest with
        | 'n' :: 'u' :: 'l' :: 'l' :: r => some (Json.null, r)
        | 't' :: 'r' :: 'u' :: 'e' :: r => some (Json.bool true, r)
        | 'f' :: 'a' :: 'l' :: 's' :: 'e' :: r => some (Json.bool false, r)
        | _ => none

/-- Parse one or more comma-separated array elements up to and consuming the
closing bracket. -/
def parseElems : Nat → List Char → Option (List Json × List Char)
  | 0, _ => none
  | Nat.succ fuel, input =>
    match parseVal fuel input with
    | none => none
    | some (x, r) =>
      match skipWs r with
      | [] => none
      | d :: r2 =>
        if d = ',' then
          match parseElems fuel r2 with
          | none => none
          | some (xs, r3) => some (x :: xs, r3)
        else if d = ']' then some ([x], r2)
        else none

/-- Parse one or more comma-separated object fields up to and consuming the
closing brace. -/
def parseFields : Nat → List Char → Option (List (String × Json) × List Char)
  | 0, _ => none
  | Nat.succ fuel, input =>
    match skipWs input with
    | [] => none
    | c :: r =>
      if c = qc then
        match parseStringBody r with
        | none => none
        | some (k, r2) =>
          match skipWs r2 with
          | [] => none
          | d :: r3 =>
            if d = ':' then
              match parseVal fuel r3 with
              | none => none
              | some (v, r4) =>
                match skipWs r4 with
                | [] => none
                | e :: r5 =>
                  if e = ',' then
                    match parseFields fuel r5 with
                    | none => none
                    | some (fs, r6) => some ((k, v) :: fs, r6)
                  else if e = rb then some ([(k, v)], r5)
                  else none
            else none
      else none

end

/-- Python's json.loads on a payload string: parse one JSON value and demand
that only whitespace remains; any violation of the grammar yields none,
modelling the json.JSONDecodeError the library raises. -/
def loads (s : String) : Option Json :=
  match parseVal (2 * s.length + 2) s.data with
  | none => none
  | some (j, rest) => if skipWs rest = [] then some j else none

/-- The Ingest Queue's capacity: asyncio.Queue is created with maxsize 1000
(src/services/gateway/main.py line 12). -/
def maxsize : Nat := 1000

/-- One call of `await queue.put(item)` on the asyncio queue, observed at the
moment the call is issued: below capacity the item is appended at the back
(FIFO) and the call completes; at capacity asyncio's put suspends the caller
until space frees, which we model as none — the queue is unchanged and the
item has not been admitted while the producer waits. -/
def put (q : List String) (x : String) : Option (List String) :=
  if q.length < maxsize then some (q ++ [x]) else none

/-- The queue state after an enqueue call has been issued: the new item is
present only if capacity allowed the put to complete; otherwise the producer
is suspended and the queue is unchanged. -/
def enqueueStep (q : List String) (x : String) : List String :=
  match put q x with
  | some q2 => q2
  | none => q

/-- The queue-level drain loop of batch_task: repeated get_nowait until
QueueEmpty is raised (src/services/gateway/main.py lines 31-35). Returns the
removed items in arrival order paired with the remaining queue; the per-item
json.loads applied to each removed item is modelled by drainParse. -/
def drainAll : List String → List String × List String
  | [] => ([], [])
  | x :: rest => ((x :: (drainAll rest).1), (drainAll rest).2)

/-- The fused drain-and-deserialize loop of batch_task: each payload is
removed with get_nowait and immediately passed to json.loads. Only
asyncio.QueueEmpty is caught, so the first payload json.loads rejects makes
the whole loop (and the tick) fail with a JSONDecodeError, returned here as
the offending payload (src/services/gateway/main.py lines 31-35). -/
def drainParse : List String → Except String (List Json)
  | [] => Except.ok []
  | p :: rest =>
    match loads p with
    | none => Except.error p
    | some j =>
      match drainParse rest with
      | Except.error e => Except.error e
      | Except.ok js => Except.ok (j :: js)

/-- The per-client send loop of batch_task: each registered handle is sent
the serialized payload; any exception from send_text is caught by the bare
except and the handle is appended to the dead list, without interrupting the
rest of the iteration (src/services/gateway/main.py lines 38-43). A client
handle is a Nat identifier; sendOk tells whether send_text succeeds for a
handle this cycle. Returns the successful (handle, frame) deliveries in
iteration order and the dead list. -/
def broadcastLoop (sendOk : Nat → Bool) (payload : String) :
    List Nat → List (Nat × String) × List Nat
  | [] => ([], [])
  | ws :: rest =>
    let r := broadcastLoop sendOk payload rest
    if sendOk ws then ((ws, payload) :: r.1, r.2) else (r.1, ws :: r.2)

/-- The removal pass after the send loop: `for ws in dead: clients.discard(ws)`
(src/services/gateway/main.py lines 44-45). The registry is a set, modelled
as a duplicate-free list in iteration order; discard removes the handle if
present. -/
def discardAll (clients : List Nat) (dead : List Nat) : List Nat :=
  dead.foldl (fun cs w => cs.filter (fun c => c != w)) clients

/-- The gateway's shared mutable state: the ingest queue of raw payloads
(oldest first) and the connection registry of client handles. -/
structure GState where
  queue : List String
  clients : List Nat

/-- One wake-up of batch_task after its sleep (src/services/gateway/main.py
lines 28-45): drain-and-deserialize the queue; an uncaught JSONDecodeError
propagates out of the while-True loop and terminates the scheduler task,
modelled as none. Otherwise, if the batch or the registry is empty the tick
continues without sending; else the batch is serialized once as an object
with fields type (the tag tls) and items, sent to every registered handle,
and the dead handles are discarded in one pass. Returns the successful
deliveries and the next state. -/
def tick (sendOk : Nat → Bool) (st : GState) : Option (List (Nat × String) × GState) :=
  match drainParse st.queue with
  | Except.error _ => none
  | Except.ok batch =>
    if batch.isEmpty || st.clients.isEmpty then
      some ([], ⟨[], st.clients⟩)
    else
      let payload := dumps (Json.obj [("type", Json.str "tls"), ("items", Json.arr batch)])
      let r := broadcastLoop sendOk payload st.clients
      some (r.1, ⟨[], discardAll st.clients r.2⟩)

/-- A message delivered by the pubsub listen loop: redis hands sub_task
dictionaries with a type field (message, subscribe, ...) and a data field. -/
structure PubSubMsg where
  type : String
  data : String

/-- One observable event on the subscribed channel: either the listen loop
yields a pubsub message, or the transport connection fails, which makes
listen raise a connection error. -/
inductive ChanEvent where
  | msg (m : PubSubMsg)
  | disconnect

/-- The status of the channel-adapter task after consuming a prefix of the
channel's event stream. -/
inductive SubOut where
  | alive (q : List String)
  | blockedPut (q : List String) (pending : String) (rest : List ChanEvent)
  | dead (q : List String) (rest : List ChanEvent)

/-- The ingest-queue contents recorded in an adapter status. -/
def SubOut.queue : SubOut → List String
  | SubOut.alive q => q
  | SubOut.blockedPut q _ _ => q
  | SubOut.dead q _ => q

/-- The receive loop of sub_task (src/services/gateway/main.py lines 20-25):
subscribe once to events.tls, then `async for msg in ps.listen()` forwards the
data of every message whose type field equals the string message into the
queue with `await queue.put`. There is no exception handler and no reconnect
logic, so a raised connection error ends the coroutine: the task is dead and
the remaining events are never seen. A put that finds the queue full suspends
the loop (blockedPut). -/
def subRun (q : List String) : List ChanEvent → SubOut
  | [] => SubOut.alive q
  | ChanEvent.disconnect :: rest => SubOut.dead q rest
  | ChanEvent.msg m :: rest =>
    if m.type = "message" then
      match put q m.data with
      | some q2 => subRun q2 rest
      | none => SubOut.blockedPut q m.data rest
    else subRun q rest

/-! ### Helper lemmas -/

/-- The get_nowait loop removes every queued item in arrival order and leaves
the queue empty. -/
lemma drainAll_eq : ∀ q : List String, drainAll q = (q, [])
  | [] => rfl
  | x :: rest => by simp [drainAll, drainAll_eq rest]

/-- When every queued payload deserializes, the fused drain loop succeeds and
yields the parses in arrival order. -/
lemma drainParse_all_ok : ∀ (q : List String), (∀ p ∈ q, (loads p).isSome) →
    drainParse q = Except.ok (q.filterMap loads)
  | [], _ => rfl
  | p :: rest, h => by
    obtain ⟨j, hj⟩ := Option.isSome_iff_exists.mp (h p (List.mem_cons_self p rest))
    have ih := drainParse_all_ok rest (fun x hx => h x (List.mem_cons_of_mem p hx))
    simp [drainParse, hj, ih, List.filterMap_cons]

/-- A successful drain determines the batch: it is exactly the list of parses
of the queued payloads in arrival order. -/
lemma drainParse_ok_eq : ∀ (q : List String) (js : List Json),
    drainParse q = Except.ok js → js = q.filterMap loads := by
  intro q
  induction q with
  | nil =>
    intro js h
    simp only [drainParse] at h
    cases h
    simp
  | cons p rest ih =>
    intro js h
    simp only [drainParse] at h
    cases hl : loads p with
    | none => rw [hl] at h; cases h
    | some j =>
      rw [hl] at h
      cases hr : drainParse rest with
      | error e => rw [hr] at h; cases h
      | ok js2 =>
        rw [hr] at h
        cases h
        simp [List.filterMap_cons, hl, ih js2 hr]

/-- The send loop delivers the frame to exactly the handles whose send
succeeds, in iteration order, and records exactly the failing handles as
dead, in iteration order. -/
lemma broadcastLoop_eq (sendOk : Nat → Bool) (payload : String) :
    ∀ cs : List Nat, broadcastLoop sendOk payload cs
      = ((cs.filter sendOk).map (fun c => (c, payload)), cs.filter (fun c => !(sendOk c)))
  | [] => rfl
  | c :: cs => by
    have ih := broadcastLoop_eq sendOk payload cs
    cases h : sendOk c <;> simp [broadcastLoop, ih, List.filter_cons, h]

/-- The one-pass removal loop keeps exactly the members outside the dead
list. -/
lemma discardAll_eq : ∀ (dead cs : List Nat),
    discardAll cs dead = cs.filter (fun c => !(dead.contains c))
  | [], cs => by simp [discardAll]
  | w :: ws, cs => by
    have ih := discardAll_eq ws (cs.filter (fun c => c != w))
    simp only [discardAll, List.foldl_cons] at ih ⊢
    rw [ih, List.filter_filter]
    refine List.filter_congr (fun c _ => ?_)
    by_cases hcw : c = w <;> simp [List.contains_cons, Bool.not_or, hcw]

/-- Removing the handles that failed this cycle from the registry keeps
exactly the handles whose send succeeded. -/
lemma discardAll_filter (sendOk : Nat → Bool) (clients : List Nat) :
    discardAll clients (clients.filter (fun c => !(sendOk c))) = clients.filter sendOk := by
  rw [discardAll_eq]
  refine List.filter_congr (fun c hc => ?_)
  cases h : sendOk c with
  | true =>
    have : c ∉ clients.filter (fun c => !(sendOk c)) := by
      simp [List.mem_filter, h]
    simp [List.contains, List.elem_eq_mem, this]
  | false =>
    have : c ∈ clients.filter (fun c => !(sendOk c)) := by
      simp [List.mem_filter, h, hc]
    simp [List.contains, List.elem_eq_mem, this]

/-- A tick on which the deserialized batch or the registry is empty skips
transmission: no sends, no failure, queue drained, registry untouched. -/
lemma tick_skip (sendOk : Nat → Bool) (q : List String) (clients : List Nat)
    (hq : ∀ p ∈ q, (loads p).isSome) (h : q = [] ∨ clients = []) :
    tick sendOk ⟨q, clients⟩ = some ([], ⟨[], clients⟩) := by
  have hd := drainParse_all_ok q hq
  cases h with
  | inl hqe =>
    subst hqe
    simp [tick, drainParse]
  | inr hce =>
    subst hce
    simp [tick, hd]

/-- Every frame a tick delivers is the one serialization of that tick's
batch: the object tagged tls whose items are the parses of the payloads
drained from the queue on this very tick. -/
lemma tick_sends_payload (sendOk : Nat → Bool) (q : List String) (clients : List Nat)
    (sends : List (Nat × String)) (st2 : GState)
    (h : tick sendOk ⟨q, clients⟩ = some (sends, st2)) :
    ∀ s ∈ sends,
      s.2 = dumps (Json.obj [("type", Json.str "tls"),
        ("items", Json.arr (q.filterMap loads))]) := by
  intro s hs
  simp only [tick] at h
  split at h
  · simp at h
  · next batch heq =>
    have hb := drainParse_ok_eq q batch heq
    split at h
    · simp only [Option.some.injEq, Prod.mk.injEq] at h
      rw [← h.1] at hs
      cases hs
    · simp only [Option.some.injEq, Prod.mk.injEq] at h
      rw [← h.1] at hs
      rw [broadcastLoop_eq] at hs
      obtain ⟨c, hcm, hc⟩ := List.mem_map.mp hs
      rw [← hc, ← hb]

/-- The queue can only grow one admitted item at a time and never beyond
capacity. -/
lemma enqueueStep_length_le (q : List String) (x : String) (h : q.length ≤ maxsize) :
    (enqueueStep q x).length ≤ maxsize := by
  by_cases hlt : q.length < maxsize
  · simp [enqueueStep, put, hlt]
    exact hlt
  · simp [enqueueStep, put, hlt]
    exact h

/-- Capacity is preserved by any sequence of enqueue calls. -/
lemma foldl_enqueueStep_length_le : ∀ (xs : List String) (q : List String),
    q.length ≤ maxsize → (xs.foldl enqueueStep q).length ≤ maxsize
  | [], q, h => h
  | x :: xs, q, h =>
    foldl_enqueueStep_length_le xs (enqueueStep q x) (enqueueStep_length_le q x h)

/-- Anything in the adapter's queue was there at the start or arrived as the
data of a channel message whose type field is the string message. -/
lemma subRun_queue_mem : ∀ (evs : List ChanEvent) (q : List String) (x : String),
    x ∈ (subRun q evs).queue →
    x ∈ q ∨ ∃ m, ChanEvent.msg m ∈ evs ∧ m.type = "message" ∧ m.data = x := by
  intro evs
  induction evs with
  | nil => intro q x hx; exact Or.inl hx
  | cons e rest ih =>
    intro q x hx
    cases e with
    | disconnect => exact Or.inl hx
    | msg m =>
      by_cases hm : m.type = "message"
      · simp only [subRun, if_pos hm] at hx
        by_cases hfull : q.length < maxsize
        · rw [show put q m.data = some (q ++ [m.data]) from if_pos hfull] at hx
          rcases ih (q ++ [m.data]) x hx with hin | ⟨m2, hm2, ht2, hd2⟩
          · rcases List.mem_append.mp hin with hq | hx2
            · exact Or.inl hq
            · refine Or.inr ⟨m, List.mem_cons_self _ _, hm, ?_⟩
              cases hx2 with
              | head => rfl
              | tail _ h2 => cases h2
          · exact Or.inr ⟨m2, List.mem_cons_of_mem _ hm2, ht2, hd2⟩
        · rw [show put q m.data = none from if_neg hfull] at hx
          exact Or.inl hx
      · simp only [subRun, if_neg hm] at hx
        rcases ih q x hx with hin | ⟨m2, hm2, ht2, hd2⟩
        · exact Or.inl hin
        · exact Or.inr ⟨m2, List.mem_cons_of_mem _ hm2, ht2, hd2⟩

/-! ### Claims -/

/-- Claim C1: the claim says a deserialization failure on one drained payload
must not abort the tick and the batch should contain exactly the valid
records. The code refutes this: json.loads runs inside a try block that
catches only asyncio.QueueEmpty, so a malformed payload drained alongside two
valid ones raises JSONDecodeError out of batch_task's loop and kills the
scheduler (tick evaluates to none); no batch is formed, even though both
valid payloads deserialize. -/
theorem c1_malformed_payload_aborts_tick :
    tick (fun _ => true)
      ⟨["\x7b\"domain\": \"a.com\"\x7d", "not json", "\x7b\"domain\": \"b.com\"\x7d"],
        [1, 2]⟩ = none ∧
    loads "\x7b\"domain\": \"a.com\"\x7d" = some (Json.obj [("domain", Json.str "a.com")]) ∧
    loads "\x7b\"domain\": \"b.com\"\x7d" = some (Json.obj [("domain", Json.str "b.com")]) :=
  ⟨rfl, rfl, rfl⟩

/-- Claim C2, counterexample: the claim says enqueue never blocks and drops
the new item when the queue is at capacity. In the code sub_task runs
`await queue.put(...)` on an asyncio.Queue, whose put suspends the caller at
capacity (modelled by put returning none: the call does not complete and the
queue is unchanged) instead of completing with the item dropped. -/
theorem c2_counterexample_enqueue_blocks_at_capacity :
    put (List.replicate 1000 "a") "b" = none := by
  have h : ¬((List.replicate 1000 "a").length < maxsize) := by
    rw [List.length_replicate]
    exact Nat.lt_irrefl 1000
  exact if_neg h

/-- Claim C2, amended: enqueue appends the item and completes immediately
whenever the queue is below capacity; at capacity the call suspends (blocks)
until space frees — the item is neither dropped nor rejected, no drop counter
exists, and no error is raised. -/
theorem c2_enqueue_appends_or_blocks (q : List String) (x : String) :
    (q.length < maxsize → put q x = some (q ++ [x])) ∧
    (maxsize ≤ q.length → put q x = none) :=
  ⟨fun h => if_pos h, fun h => if_neg (Nat.not_lt.mpr h)⟩

/-- Claim C2, witness for the amended theorem at concrete queues. -/
theorem c2_enqueue_appends_or_blocks_witness :
    put [] "a" = some ["a"] ∧ put (List.replicate 1000 "a") "b" = none :=
  ⟨(c2_enqueue_appends_or_blocks [] "a").1 (by decide),
   (c2_enqueue_appends_or_blocks (List.replicate 1000 "a") "b").2
     (by rw [List.length_replicate]; exact Nat.le_refl 1000)⟩

/-- Claim C3: per-handle send failures are caught and isolated. The send loop
delivers the frame to every handle whose send succeeds — handles after a
failing one included — records exactly the failing handles, and never
propagates the error (broadcastLoop is total); the removal pass afterwards
evicts exactly this cycle's failed handles from the registry in one pass,
each at most once (the registry being a duplicate-free set). -/
theorem c3_send_failure_isolated (sendOk : Nat → Bool) (payload : String)
    (clients : List Nat) (hnd : clients.Nodup) :
    broadcastLoop sendOk payload clients
      = ((clients.filter sendOk).map (fun c => (c, payload)),
         clients.filter (fun c => !(sendOk c))) ∧
    discardAll clients ((broadcastLoop sendOk payload clients).2)
      = clients.filter sendOk := by
  refine ⟨broadcastLoop_eq sendOk payload clients, ?_⟩
  rw [broadcastLoop_eq]
  exact discardAll_filter sendOk clients

/-- Claim C3, witness: three clients of which the middle one fails; the other
two receive the frame and only the failing one is evicted. -/
theorem c3_send_failure_isolated_witness :
    broadcastLoop (fun c => c != 2) "frame" [1, 2, 3]
      = (([1, 2, 3].filter (fun c => c != 2)).map (fun c => (c, "frame")),
         [1, 2, 3].filter (fun c => !(c != 2))) ∧
    discardAll [1, 2, 3] ((broadcastLoop (fun c => c != 2) "frame" [1, 2, 3]).2)
      = [1, 2, 3].filter (fun c => c != 2) :=
  c3_send_failure_isolated (fun c => c != 2) "frame" [1, 2, 3] (by decide)

/-- Claim C4: the drain loop removes and returns every queued item in arrival
order leaving the queue empty (the empty sequence when nothing is queued),
and an immediately repeated drain returns the empty sequence. -/
theorem c4_drain_all_exhaustive (q : List String) :
    drainAll q = (q, []) ∧ drainAll (drainAll q).2 = ([], []) := by
  refine ⟨drainAll_eq q, ?_⟩
  rw [drainAll_eq q]
  exact drainAll_eq []

/-- Claim C5: for every sequence of enqueue calls starting from the empty
queue the ingest queue never holds more than the configured capacity of 1000
items, and the full-queue policy is one deterministic rule: the item is not
admitted while the queue is full (the put call suspends, leaving the queue
unchanged). -/
theorem c5_capacity_invariant (xs : List String) :
    ((xs.foldl enqueueStep []).length ≤ maxsize) ∧
    (∀ (q : List String) (x : String), maxsize ≤ q.length → enqueueStep q x = q) := by
  refine ⟨foldl_enqueueStep_length_le xs [] (by simp), fun q x h => ?_⟩
  simp [enqueueStep, put, Nat.not_lt.mpr h]

/-- Claim C5, witness at a concrete overlong enqueue sequence and a concrete
full queue. -/
theorem c5_capacity_invariant_witness :
    ((["a", "b"].foldl enqueueStep []).length ≤ maxsize) ∧
    enqueueStep (List.replicate 1000 "x") "y" = List.replicate 1000 "x" :=
  ⟨(c5_capacity_invariant ["a", "b"]).1,
   (c5_capacity_invariant ["a", "b"]).2 (List.replicate 1000 "x") "y"
     (by rw [List.length_replicate]; exact Nat.le_refl 1000)⟩

/-- Claim C6, counterexample: the claim promises that a tick with an empty
Connection Registry makes zero send attempts, raises no error and lets the
scheduler tick again. With the registry empty but a malformed payload queued,
the code instead raises out of the drain loop before ever reaching the
emptiness check, killing the scheduler task (tick evaluates to none). -/
theorem c6_counterexample_malformed_errors_with_empty_registry :
    tick (fun _ => true) ⟨["not json"], []⟩ = none := rfl

/-- Claim C6, amended: on every tick where every drained payload
deserializes, if the resulting batch is empty or the registry is empty the
tick is a transmission no-op — zero send attempts, no error, the scheduler
keeps ticking — and the registry is left untouched. -/
theorem c6_empty_batch_or_registry_tick_is_noop (sendOk : Nat → Bool)
    (q : List String) (clients : List Nat)
    (hq : ∀ p ∈ q, (loads p).isSome) (h : q = [] ∨ clients = []) :
    tick sendOk ⟨q, clients⟩ = some ([], ⟨[], clients⟩) :=
  tick_skip sendOk q clients hq h

/-- Claim C6, witness: an empty interval with one connected client is a
no-op tick. -/
theorem c6_empty_batch_or_registry_tick_is_noop_witness :
    tick (fun _ => true) ⟨[], [7]⟩ = some ([], ⟨[], [7]⟩) :=
  c6_empty_batch_or_registry_tick_is_noop (fun _ => true) [] [7] (by simp) (Or.inl rfl)

/-- Claim C7: two well-formed events published within one interval reach the
queue in arrival order through the adapter, and the following tick sends
every then-registered client exactly one frame — the JSON object tagged tls
whose items are the two event records in arrival order — leaving the registry
unchanged. -/
theorem c7_two_events_one_frame_per_client (pa pb : String) (ja jb : Json)
    (clients : List Nat) (ha : loads pa = some ja) (hb : loads pb = some jb)
    (hne : clients ≠ []) (hnd : clients.Nodup) :
    subRun [] [ChanEvent.msg ⟨"message", pa⟩, ChanEvent.msg ⟨"message", pb⟩]
      = SubOut.alive [pa, pb] ∧
    tick (fun _ => true) ⟨[pa, pb], clients⟩
      = some (clients.map (fun c =>
          (c, dumps (Json.obj [("type", Json.str "tls"),
            ("items", Json.arr [ja, jb])]))), ⟨[], clients⟩) := by
  constructor
  · simp [subRun, put, maxsize]
  · have hd : drainParse [pa, pb] = Except.ok [ja, jb] := by
      simp [drainParse, ha, hb]
    have hce : clients.isEmpty = false := by
      cases clients with
      | nil => exact absurd rfl hne
      | cons c cs => rfl
    simp only [tick, hd, hce]
    rw [broadcastLoop_eq]
    simp [discardAll, List.filter_true, List.filter_false]

/-- Claim C7, witness: the spec's scenario with the two concrete event
records and two connected clients. -/
theorem c7_two_events_one_frame_per_client_witness :
    subRun []
      [ChanEvent.msg ⟨"message",
        "\x7b\"domain\": \"a.com\", \"ip\": \"9.9.9.9\", \"lat\": 1, \"lng\": 2, \"ts\": 1000\x7d"⟩,
       ChanEvent.msg ⟨"message",
        "\x7b\"domain\": \"b.com\", \"ip\": \"9.9.9.9\", \"lat\": 1, \"lng\": 2, \"ts\": 1000\x7d"⟩]
      = SubOut.alive
        ["\x7b\"domain\": \"a.com\", \"ip\": \"9.9.9.9\", \"lat\": 1, \"lng\": 2, \"ts\": 1000\x7d",
         "\x7b\"domain\": \"b.com\", \"ip\": \"9.9.9.9\", \"lat\": 1, \"lng\": 2, \"ts\": 1000\x7d"] ∧
    tick (fun _ => true)
      ⟨["\x7b\"domain\": \"a.com\", \"ip\": \"9.9.9.9\", \"lat\": 1, \"lng\": 2, \"ts\": 1000\x7d",
        "\x7b\"domain\": \"b.com\", \"ip\": \"9.9.9.9\", \"lat\": 1, \"lng\": 2, \"ts\": 1000\x7d"],
       [1, 2]⟩
      = some ([1, 2].map (fun c =>
          (c, dumps (Json.obj [("type", Json.str "tls"),
            ("items", Json.arr
              [Json.obj [("domain", Json.str "a.com"), ("ip", Json.str "9.9.9.9"),
                ("lat", Json.num 1), ("lng", Json.num 2), ("ts", Json.num 1000)],
               Json.obj [("domain", Json.str "b.com"), ("ip", Json.str "9.9.9.9"),
                ("lat", Json.num 1), ("lng", Json.num 2), ("ts", Json.num 1000)]])]))),
          ⟨[], [1, 2]⟩) :=
  c7_two_events_one_frame_per_client _ _ _ _ [1, 2] rfl rfl (by simp) (by decide)

/-- Claim C8: the claim says a transport-level disconnect triggers
reconnect-with-backoff, resubscribing and resuming forwarding. The code
refutes this: sub_task subscribes once and has no exception handler, so the
connection error raised by the listen loop terminates the adapter task at the
disconnect — the process survives, but the events after the disconnect are
never forwarded and no resubscription happens. -/
theorem c8_disconnect_terminates_adapter :
    subRun [] [ChanEvent.msg ⟨"message", "a"⟩, ChanEvent.disconnect,
      ChanEvent.msg ⟨"message", "b"⟩]
      = SubOut.dead ["a"] [ChanEvent.msg ⟨"message", "b"⟩] := rfl

/-- Claim C9: events drained on a tick with an empty registry are lost
permanently — the tick removes them from the queue, sends nothing, and leaves
an empty queue behind; moreover every frame any tick ever delivers is built
exclusively from the payloads drained from the queue on that same tick, so an
event absent from a later tick's queue can never appear in a later batch. -/
theorem c9_drained_events_unrecoverable (sendOk : Nat → Bool) (q : List String)
    (hq : ∀ p ∈ q, (loads p).isSome) :
    tick sendOk ⟨q, []⟩ = some ([], ⟨[], []⟩) ∧
    ∀ (g : Nat → Bool) (q2 : List String) (c2 : List Nat)
      (sends : List (Nat × String)) (st2 : GState),
      tick g ⟨q2, c2⟩ = some (sends, st2) →
      ∀ s ∈ sends, s.2 = dumps (Json.obj [("type", Json.str "tls"),
        ("items", Json.arr (q2.filterMap loads))]) :=
  ⟨tick_skip sendOk q [] hq (Or.inr rfl),
   fun g q2 c2 sends st2 h => tick_sends_payload g q2 c2 sends st2 h⟩

/-- Claim C9, witness: a zero-client tick drops the queued event and sends
nothing; a later tick's frame is built from the later queue only. -/
theorem c9_drained_events_unrecoverable_witness :
    tick (fun _ => true) ⟨["1"], []⟩ = some ([], ⟨[], []⟩) ∧
    ((5 : Nat), dumps (Json.obj [("type", Json.str "tls"),
        ("items", Json.arr [Json.num 2])])).2
      = dumps (Json.obj [("type", Json.str "tls"),
        ("items", Json.arr (["2"].filterMap loads))]) := by
  have h := c9_drained_events_unrecoverable (fun _ => true) ["1"]
    (by intro p hp; rw [List.mem_singleton] at hp; subst hp; rfl)
  refine ⟨h.1, ?_⟩
  refine h.2 (fun _ => true) ["2"] [5]
    [(5, dumps (Json.obj [("type", Json.str "tls"),
      ("items", Json.arr [Json.num 2])]))] ⟨[], [5]⟩ rfl _ ?_
  exact List.mem_singleton.mpr rfl

/-- Claim C10: only pubsub messages whose type field equals the string
message are enqueued — anything found in the adapter's queue is the data of
such a message, so subscription-control messages never enter the queue. -/
theorem c10_only_message_type_enqueued (evs : List ChanEvent) (x : String)
    (hx : x ∈ (subRun [] evs).queue) :
    ∃ m, ChanEvent.msg m ∈ evs ∧ m.type = "message" ∧ m.data = x :=
  (subRun_queue_mem evs [] x hx).resolve_left (by simp)

/-- Claim C10, witness: a subscription-confirmation message followed by a
published payload; only the payload is in the queue and it traces back to the
message-typed event. -/
theorem c10_only_message_type_enqueued_witness :
    ∃ m, ChanEvent.msg m ∈ [ChanEvent.msg ⟨"subscribe", "1"⟩,
        ChanEvent.msg ⟨"message", "d"⟩] ∧
      m.type = "message" ∧ m.data = "d" :=
  c10_only_message_type_enqueued
    [ChanEvent.msg ⟨"subscribe", "1"⟩, ChanEvent.msg ⟨"message", "d"⟩] "d" (by decide)

end Gateway
